import Mathlib

/-!
Verification of the Math Tug-of-War game logic engine
(children-games-arena repository).

Shallow embedding of the JavaScript sources:
- `GameState.js`  — the `GameState` and `ScoreManager` classes;
- `QuestionGenerator.js` — question generation and answer validation;
- `index.js` (`MathTugOfWar` controller) — the resolution sequence,
  timeout handling, settings event listeners, reset.

JavaScript numbers are modelled as `Int` where the program only ever
stores integers (rope position, scores, stats, settings bounds) and as
`ℚ` where fractional values can occur (parsed answers, `Math.random()`
draws).  `Math.random()` is modelled by an explicit rational parameter
`r` with `0 ≤ r < 1`; `Math.floor` is `Int.floor`.
-/

namespace TugOfWar

/-- Game status values of `GameState.gameStatus`: 'idle', 'playing',
'paused', 'ended'. -/
inductive GameStatus
  | idle
  | playing
  | paused
  | ended
deriving DecidableEq, Repr

/-- Difficulty values: 'easy', 'medium', 'hard'. -/
inductive Difficulty
  | easy
  | medium
  | hard
deriving DecidableEq, Repr

/-- Operation values: 'addition', 'subtraction', 'multiplication',
'division', 'mixed'. -/
inductive Operation
  | addition
  | subtraction
  | multiplication
  | division
  | mixed
deriving DecidableEq, Repr

/-- Winner values 'player1' / 'player2' (the strings passed to
`handleWin` and returned by `checkWinCondition` / `determineWinner`). -/
inductive Winner
  | player1
  | player2
deriving DecidableEq, Repr

/-- The `settings` object of `GameState`. -/
structure Settings where
  difficulty : Difficulty
  operation : Operation
  timerEnabled : Bool
  timerValue : Int
  soundEnabled : Bool
  questionLimitEnabled : Bool
  questionLimit : Int
deriving DecidableEq, Repr

/-- The `scores` object (used both by `GameState` and `ScoreManager`). -/
structure Scores where
  player1 : Int
  player2 : Int
deriving DecidableEq, Repr

/-- The `stats` object of `GameState`. -/
structure Stats where
  totalQuestions : Int
  correctAnswers : Int
  wrongAnswers : Int
  timeouts : Int
deriving DecidableEq, Repr

/-- A question object `{ text, answer, operation }`.  `answer` is
`Option ℚ` because `GameState.reset` initialises it to `null`. -/
structure Question where
  text : String
  answer : Option ℚ
  operation : String
deriving DecidableEq, Repr

/-- The `GameState` class state.  The constants `WIN_THRESHOLD`,
`CORRECT_PULL_STRENGTH` and `WRONG_PULL_STRENGTH` are assigned the same
literals on every `reset()` and never reassigned, so they are modelled
as plain definitions below rather than as fields. -/
structure GameState where
  currentPlayer : Int
  ropePosition : Int
  scores : Scores
  settings : Settings
  gameStatus : GameStatus
  currentQuestion : Question
  stats : Stats
deriving DecidableEq, Repr

/-- `this.WIN_THRESHOLD = 8` in `GameState.reset`. -/
def WIN_THRESHOLD : Int := 8

/-- `this.CORRECT_PULL_STRENGTH = 2` in `GameState.reset`. -/
def CORRECT_PULL_STRENGTH : Int := 2

/-- `this.WRONG_PULL_STRENGTH = 1` in `GameState.reset`. -/
def WRONG_PULL_STRENGTH : Int := 1

/-- The default settings assigned by `GameState.reset`. -/
def defaultSettings : Settings where
  difficulty := Difficulty.medium
  operation := Operation.mixed
  timerEnabled := true
  timerValue := 20
  soundEnabled := true
  questionLimitEnabled := false
  questionLimit := 40

/-- The state produced by `GameState.reset` (equivalently the state of a
freshly constructed `GameState`, since the constructor calls `reset`). -/
def GameState.initial : GameState where
  currentPlayer := 1
  ropePosition := 0
  scores := { player1 := 0, player2 := 0 }
  settings := defaultSettings
  gameStatus := GameStatus.idle
  currentQuestion := { text := "", answer := none, operation := "" }
  stats := { totalQuestions := 0, correctAnswers := 0, wrongAnswers := 0, timeouts := 0 }

/-- `GameState.reset()`: every field is reassigned its default, so the
result does not depend on the previous state. -/
def GameState.reset (_st : GameState) : GameState := GameState.initial

/-- `GameState.updateRopePosition(isCorrect)`:
`direction = currentPlayer === 1 ? -1 : 1`;
`strength = isCorrect ? CORRECT_PULL_STRENGTH : WRONG_PULL_STRENGTH`;
correct adds `direction * strength`, wrong subtracts it; finally the
position is clamped with `Math.max(-10, Math.min(10, ropePosition))`. -/
def GameState.updateRopePosition (st : GameState) (isCorrect : Bool) : GameState :=
  let direction : Int := if st.currentPlayer = 1 then -1 else 1
  let strength : Int := if isCorrect then CORRECT_PULL_STRENGTH else WRONG_PULL_STRENGTH
  let pos : Int :=
    if isCorrect then st.ropePosition + direction * strength
    else st.ropePosition - direction * strength
  { st with ropePosition := max (-10) (min 10 pos) }

/-- `GameState.switchPlayer()`. -/
def GameState.switchPlayer (st : GameState) : GameState :=
  { st with currentPlayer := if st.currentPlayer = 1 then 2 else 1 }

/-- `GameState.incrementScore(player)`: no-op for a player id other than
1 or 2. -/
def GameState.incrementScore (st : GameState) (player : Int) : GameState :=
  if player = 1 then
    { st with scores := { st.scores with player1 := st.scores.player1 + 1 } }
  else if player = 2 then
    { st with scores := { st.scores with player2 := st.scores.player2 + 1 } }
  else st

/-- `GameState.updateStats(isCorrect, isTimeout = false)`. -/
def GameState.updateStats (st : GameState) (isCorrect : Bool) (isTimeout : Bool) : GameState :=
  let s := st.stats
  let s := { s with totalQuestions := s.totalQuestions + 1 }
  let s :=
    if isTimeout then { s with timeouts := s.timeouts + 1 }
    else if isCorrect then { s with correctAnswers := s.correctAnswers + 1 }
    else { s with wrongAnswers := s.wrongAnswers + 1 }
  { st with stats := s }

/-- `GameState.checkWinCondition()`: `none` models the `null` return. -/
def GameState.checkWinCondition (st : GameState) : Option Winner :=
  if st.ropePosition ≤ -WIN_THRESHOLD then some Winner.player1
  else if st.ropePosition ≥ WIN_THRESHOLD then some Winner.player2
  else none

/-- A partial settings object, as passed to `updateSettings`; `none`
fields are absent from the update object. -/
structure SettingsPatch where
  difficulty? : Option Difficulty := none
  operation? : Option Operation := none
  timerEnabled? : Option Bool := none
  timerValue? : Option Int := none
  soundEnabled? : Option Bool := none
  questionLimitEnabled? : Option Bool := none
  questionLimit? : Option Int := none
deriving DecidableEq, Repr

/-- `GameState.updateSettings(newSettings)`: object-spread merge
`{ ...this.settings, ...newSettings }` — each field present in the
update object replaces the old value, the rest are kept.  There is no
guard of any kind in this method. -/
def GameState.updateSettings (st : GameState) (p : SettingsPatch) : GameState :=
  { st with settings :=
    { difficulty := p.difficulty?.getD st.settings.difficulty
      operation := p.operation?.getD st.settings.operation
      timerEnabled := p.timerEnabled?.getD st.settings.timerEnabled
      timerValue := p.timerValue?.getD st.settings.timerValue
      soundEnabled := p.soundEnabled?.getD st.settings.soundEnabled
      questionLimitEnabled := p.questionLimitEnabled?.getD st.settings.questionLimitEnabled
      questionLimit := p.questionLimit?.getD st.settings.questionLimit } }

/-- `GameState.setCurrentQuestion(question)`. -/
def GameState.setCurrentQuestion (st : GameState) (q : Question) : GameState :=
  { st with currentQuestion := q }

/-- `GameState.start()`. -/
def GameState.start (st : GameState) : GameState :=
  { st with gameStatus := GameStatus.playing }

/-- `GameState.pause()`. -/
def GameState.pause (st : GameState) : GameState :=
  { st with gameStatus := GameStatus.paused }

/-- `GameState.resume()`. -/
def GameState.resume (st : GameState) : GameState :=
  { st with gameStatus := GameStatus.playing }

/-- `GameState.end()`. -/
def GameState.stop (st : GameState) : GameState :=
  { st with gameStatus := GameStatus.ended }

/-! ### ScoreManager (`ScoreManager.js`) -/

namespace ScoreManager

/-- `ScoreManager.updateScore(player, points = 1)`: no-op for a player
id other than 1 or 2. -/
def updateScore (s : Scores) (player : Int) (points : Int) : Scores :=
  if player = 1 then { s with player1 := s.player1 + points }
  else if player = 2 then { s with player2 := s.player2 + points }
  else s

/-- `ScoreManager.determineWinner()`: returns 'player1' or 'player2' for
a strictly higher score; the string 'tie' is modelled as `none`. -/
def determineWinner (s : Scores) : Option Winner :=
  if s.player1 > s.player2 then some Winner.player1
  else if s.player2 > s.player1 then some Winner.player2
  else none

end ScoreManager

/-! ### QuestionGenerator (`QuestionGenerator.js`)

Each `Math.random()` call is modelled by a rational parameter in
`[0, 1)` supplied by the caller (the random source is treated as an
injected dependency). -/

namespace QuestionGenerator

/-- `this.difficultyRanges` from the constructor: `(min, max)` pairs. -/
def difficultyRanges (d : Difficulty) : Int × Int :=
  match d with
  | Difficulty.easy => (1, 10)
  | Difficulty.medium => (1, 50)
  | Difficulty.hard => (1, 100)

/-- `_getRandomNumber(difficulty)`:
`Math.floor(Math.random() * (range.max - range.min + 1)) + range.min`,
with the random draw `r` made explicit. -/
def getRandomNumber (d : Difficulty) (r : ℚ) : Int :=
  let range := difficultyRanges d
  Int.floor (r * ((range.2 - range.1 + 1 : ℤ) : ℚ)) + range.1

/-- `_generateAddition(difficulty)` with the two random draws explicit. -/
def generateAddition (d : Difficulty) (r₁ r₂ : ℚ) : Question :=
  let a := getRandomNumber d r₁
  let b := getRandomNumber d r₂
  { text := toString a ++ " + " ++ toString b
    answer := some ((a : ℚ) + (b : ℚ))
    operation := "addition" }

/-- The operand pair computed by `_generateSubtraction` after the
conditional swap `if (a < b) [a, b] = [b, a]`. -/
def subtractionDraws (d : Difficulty) (r₁ r₂ : ℚ) : Int × Int :=
  let a := getRandomNumber d r₁
  let b := getRandomNumber d r₂
  if a < b then (b, a) else (a, b)

/-- `_generateSubtraction(difficulty)` with the two random draws
explicit. -/
def generateSubtraction (d : Difficulty) (r₁ r₂ : ℚ) : Question :=
  let p := subtractionDraws d r₁ r₂
  { text := toString p.1 ++ " - " ++ toString p.2
    answer := some ((p.1 : ℚ) - (p.2 : ℚ))
    operation := "subtraction" }

/-- `_generateMultiplication(difficulty)`: per-difficulty factor draws
(easy: both `Math.floor(Math.random()*10)+1`; medium: `*12` and `*10`;
hard/else: both `*20`). -/
def generateMultiplication (d : Difficulty) (r₁ r₂ : ℚ) : Question :=
  let ab : Int × Int :=
    if d = Difficulty.easy then (Int.floor (r₁ * 10) + 1, Int.floor (r₂ * 10) + 1)
    else if d = Difficulty.medium then (Int.floor (r₁ * 12) + 1, Int.floor (r₂ * 10) + 1)
    else (Int.floor (r₁ * 20) + 1, Int.floor (r₂ * 20) + 1)
  { text := toString ab.1 ++ " × " ++ toString ab.2
    answer := some ((ab.1 : ℚ) * (ab.2 : ℚ))
    operation := "multiplication" }

/-- The `(divisor, quotient)` pair drawn by `_generateDivision`
(easy: `Math.floor(Math.random()*9)+2` and `*10+1`; medium: `*9+2` and
`*20+1`; hard/else: `*12+2` and `*30+1`). -/
def divisionDraws (d : Difficulty) (r₁ r₂ : ℚ) : Int × Int :=
  if d = Difficulty.easy then (Int.floor (r₁ * 9) + 2, Int.floor (r₂ * 10) + 1)
  else if d = Difficulty.medium then (Int.floor (r₁ * 9) + 2, Int.floor (r₂ * 20) + 1)
  else (Int.floor (r₁ * 12) + 2, Int.floor (r₂ * 30) + 1)

/-- `_generateDivision(difficulty)`: `dividend = divisor * quotient`,
recorded answer is the quotient. -/
def generateDivision (d : Difficulty) (r₁ r₂ : ℚ) : Question :=
  let p := divisionDraws d r₁ r₂
  let dividend := p.1 * p.2
  { text := toString dividend ++ " ÷ " ++ toString p.1
    answer := some ((p.2 : ℚ))
    operation := "division" }

/-- The `operations` array of `_getRandomOperation`. -/
def operationsArray : List Operation :=
  [Operation.addition, Operation.subtraction, Operation.multiplication, Operation.division]

/-- `_getRandomOperation()`: `operations[Math.floor(Math.random()*4)]`.
An out-of-range index yields `undefined` (`none`), which the caller's
`switch` sends to the default branch. -/
def getRandomOperation (r : ℚ) : Option Operation :=
  operationsArray.get? (Int.floor (r * 4)).toNat

/-- `generateQuestion(operation, difficulty)`: for 'mixed' an operation
is drawn at random first; the `switch` falls back to addition in its
default branch. -/
def generateQuestion (op : Operation) (d : Difficulty) (rop r₁ r₂ : ℚ) : Question :=
  let selectedOp : Option Operation :=
    if op = Operation.mixed then getRandomOperation rop else some op
  match selectedOp with
  | some Operation.addition => generateAddition d r₁ r₂
  | some Operation.subtraction => generateSubtraction d r₁ r₂
  | some Operation.multiplication => generateMultiplication d r₁ r₂
  | some Operation.division => generateDivision d r₁ r₂
  | _ => generateAddition d r₁ r₂

end QuestionGenerator

/-! ### JavaScript values and number conversion (for `validateAnswer`)

`validateAnswer(userAnswer, correctAnswer)` receives the raw value of a
text input (a string) or possibly `null`/`undefined`; already-numeric
values are included for completeness.  `Number(x)` on a string is
modelled for decimal literals: leading/trailing whitespace is trimmed, a
whitespace-only string converts to 0, an optional sign is followed by
digits with an optional fraction part; anything else is `NaN` (`none`).
The JavaScript tolerance literal `0.01` is modelled as the exact
rational `1/100` (the nearest binary double differs by less than
`2 ^ (-56)`, immaterial to every comparison considered here). -/

/-- A JavaScript value as received by `validateAnswer`. -/
inductive JSValue
  | null
  | undefined
  | str (s : String)
  | num (q : ℚ)
deriving DecidableEq, Repr

/-- Numeric value of a digit list, most significant first. -/
def digitsVal (cs : List Char) : ℕ :=
  cs.foldl (fun n c => 10 * n + (c.toNat - 48)) 0

/-- Decimal literal `digits [. digits]` (at least one digit overall). -/
def parseDecimalChars (cs : List Char) : Option ℚ :=
  let intPart := cs.takeWhile Char.isDigit
  match cs.dropWhile Char.isDigit with
  | [] => if intPart = [] then none else some ((digitsVal intPart : ℕ) : ℚ)
  | '.' :: frac =>
      if frac.all Char.isDigit = true ∧ (intPart ≠ [] ∨ frac ≠ []) then
        some (((digitsVal intPart : ℕ) : ℚ) + ((digitsVal frac : ℕ) : ℚ) / (10 : ℚ) ^ frac.length)
      else none
  | _ => none

/-- Optionally signed decimal literal. -/
def parseSignedChars (cs : List Char) : Option ℚ :=
  match cs with
  | '-' :: rest => (parseDecimalChars rest).map (fun q => -q)
  | '+' :: rest => parseDecimalChars rest
  | _ => parseDecimalChars cs

/-- `Number(s)` for a string `s` (decimal literals; `none` is `NaN`). -/
def jsStringToNumber (s : String) : Option ℚ :=
  let cs := ((s.toList.dropWhile Char.isWhitespace).reverse.dropWhile Char.isWhitespace).reverse
  if cs = [] then some 0 else parseSignedChars cs

/-- `Number(x)` for the values `validateAnswer` can receive (`none` is
`NaN`; note `Number(null) = 0` while `Number(undefined)` is `NaN`). -/
def jsNumber : JSValue → Option ℚ
  | JSValue.null => some 0
  | JSValue.undefined => none
  | JSValue.num q => some q
  | JSValue.str s => jsStringToNumber s

/-- `QuestionGenerator.validateAnswer(userAnswer, correctAnswer)`:
rejects `''`, `null`, `undefined`; rejects `NaN` conversions; otherwise
compares with tolerance `Math.abs(numericAnswer - correctAnswer) < 0.01`. -/
def validateAnswer (userAnswer : JSValue) (correctAnswer : ℚ) : Bool :=
  if userAnswer = JSValue.str "" ∨ userAnswer = JSValue.null ∨ userAnswer = JSValue.undefined then
    false
  else
    match jsNumber userAnswer with
    | none => false
    | some q => decide (|q - correctAnswer| < 1 / 100)

/-! ### MathTugOfWar controller (`index.js`)

State of the controller that the claims exercise.  DOM plumbing is kept
only where it carries game logic: `settingsInputsEnabled` models the
`disabled` flag that `_setSettingsEnabled` sets on the four elements in
its list (`difficultySelect`, `operationSelect`, `timerToggle`,
`timerValueInput`) — a disabled input fires no change events.  The
`questionLimitToggle` and `questionLimitInput` elements are NOT in that
list, so their change listeners run in every status.  `winOverlay`
records the winner passed to `showWinOverlay`.  `nextQuestionScheduled`
records that `processAnswer` reached the `setTimeout` that presents the
next question. -/

/-- The `MathTugOfWar` controller state. -/
structure Controller where
  gameState : GameState
  scores : Scores
  timerRunning : Bool
  timeRemaining : Int
  settingsInputsEnabled : Bool
  inputEnabled : Bool
  nextQuestionScheduled : Bool
  winOverlay : Option Winner
deriving DecidableEq, Repr

namespace Controller

/-- A freshly constructed and initialised controller. -/
def initial : Controller where
  gameState := GameState.initial
  scores := { player1 := 0, player2 := 0 }
  timerRunning := false
  timeRemaining := 0
  settingsInputsEnabled := true
  inputEnabled := false
  nextQuestionScheduled := false
  winOverlay := none

/-- `stopTimer()`. -/
def stopTimer (c : Controller) : Controller :=
  { c with timerRunning := false }

/-- `startTimer()`: `stopTimer` then a fresh countdown from
`settings.timerValue`. -/
def startTimer (c : Controller) : Controller :=
  { c with timerRunning := true, timeRemaining := c.gameState.settings.timerValue }

/-- `handleWin(winner)`: end the game state, stop the timer, disable
input, show the win overlay. -/
def handleWin (c : Controller) (w : Winner) : Controller :=
  { c with
    gameState := c.gameState.stop
    timerRunning := false
    inputEnabled := false
    winOverlay := some w }

/-- `processAnswer(isCorrect, userAnswer)` — the synchronous resolution
sequence: update stats (`updateStats(isCorrect)`, no timeout flag);
update the answering player's score if correct; update the rope; check
the rope win condition; else check the question limit (tie defers the
end); else switch player and schedule the next question. -/
def processAnswer (c : Controller) (isCorrect : Bool) : Controller :=
  let gs1 := c.gameState.updateStats isCorrect false
  let sc1 := if isCorrect then ScoreManager.updateScore c.scores gs1.currentPlayer 1 else c.scores
  let gs2 := gs1.updateRopePosition isCorrect
  let c1 : Controller := { c with gameState := gs2, scores := sc1 }
  match gs2.checkWinCondition with
  | some w => c1.handleWin w
  | none =>
    let proceed : Controller :=
      { c1 with gameState := gs2.switchPlayer, nextQuestionScheduled := true }
    if gs2.settings.questionLimitEnabled = true then
      if gs2.stats.totalQuestions ≥ gs2.settings.questionLimit then
        match ScoreManager.determineWinner sc1 with
        | none => proceed
        | some w => c1.handleWin w
      else proceed
    else proceed

/-- `handleTimeout()`: stop the timer, record the timeout via
`updateStats(false, true)`, then run `processAnswer(false, '(timeout)')`
— which records the same question again via `updateStats(false)`. -/
def handleTimeout (c : Controller) : Controller :=
  let c := c.stopTimer
  let c := { c with gameState := c.gameState.updateStats false true }
  c.processAnswer false

/-- `nextQuestion()`: generate a question from the current settings
(random draws explicit), store it, restart the timer if enabled. -/
def nextQuestion (c : Controller) (rop r₁ r₂ : ℚ) : Controller :=
  let q := QuestionGenerator.generateQuestion
    c.gameState.settings.operation c.gameState.settings.difficulty rop r₁ r₂
  let c := { c with gameState := c.gameState.setCurrentQuestion q }
  if c.gameState.settings.timerEnabled then c.startTimer else c

/-- `startGame()`: disable the settings inputs (only those in the
`_setSettingsEnabled` list), start the game state, present the first
question, enable answer input. -/
def startGame (c : Controller) (rop r₁ r₂ : ℚ) : Controller :=
  let c := { c with settingsInputsEnabled := false }
  let c := { c with gameState := c.gameState.start }
  let c := c.nextQuestion rop r₁ r₂
  { c with inputEnabled := true }

/-- `resetGame()`: stop the timer, `GameState.reset()`,
`ScoreManager.reset()`, hide the win overlay, re-enable the settings
inputs, disable answer input. -/
def resetGame (c : Controller) : Controller :=
  let c := c.stopTimer
  { c with
    gameState := c.gameState.reset
    scores := { player1 := 0, player2 := 0 }
    winOverlay := none
    settingsInputsEnabled := true
    inputEnabled := false }

/-- Change listener of `timerValueInput`: the element is in the
`_setSettingsEnabled` list, so while it is disabled no event fires; the
handler applies the update only for `value >= 5 && value <= 60`. -/
def onTimerValueChange (c : Controller) (v : Int) : Controller :=
  if c.settingsInputsEnabled then
    if 5 ≤ v ∧ v ≤ 60 then
      { c with gameState := c.gameState.updateSettings { timerValue? := some v } }
    else c
  else c

/-- Change listener of `questionLimitInput`: the element is NOT in the
`_setSettingsEnabled` list, so it fires in every game status; the
handler applies the update only for `value >= 5 && value <= 100`. -/
def onQuestionLimitChange (c : Controller) (v : Int) : Controller :=
  if 5 ≤ v ∧ v ≤ 100 then
    { c with gameState := c.gameState.updateSettings { questionLimit? := some v } }
  else c

/-- Change listener of `questionLimitToggle`: also NOT in the
`_setSettingsEnabled` list; unconditional update. -/
def onQuestionLimitToggle (c : Controller) (b : Bool) : Controller :=
  { c with gameState := c.gameState.updateSettings { questionLimitEnabled? := some b } }

/-- Change listener of `difficultySelect`: in the `_setSettingsEnabled`
list, so no event fires while disabled. -/
def onDifficultyChange (c : Controller) (d : Difficulty) : Controller :=
  if c.settingsInputsEnabled then
    { c with gameState := c.gameState.updateSettings { difficulty? := some d } }
  else c

end Controller

/-! ## Helper lemmas -/

/-- One `updateRopePosition` call leaves the rope position clamped. -/
lemma ropePosition_bounds (st : GameState) (isCorrect : Bool) :
    -10 ≤ (st.updateRopePosition isCorrect).ropePosition ∧
      (st.updateRopePosition isCorrect).ropePosition ≤ 10 := by
  simp only [GameState.updateRopePosition, CORRECT_PULL_STRENGTH, WRONG_PULL_STRENGTH]
  omega

/-- Any sequence of `updateRopePosition` calls keeps the position in
`[-10, 10]`, given it starts there. -/
lemma ropePosition_foldl_bounds (bs : List Bool) (st : GameState)
    (h₁ : -10 ≤ st.ropePosition) (h₂ : st.ropePosition ≤ 10) :
    -10 ≤ (bs.foldl GameState.updateRopePosition st).ropePosition ∧
      (bs.foldl GameState.updateRopePosition st).ropePosition ≤ 10 := by
  induction bs generalizing st with
  | nil => exact ⟨h₁, h₂⟩
  | cons b bs ih =>
      have h := ropePosition_bounds st b
      exact ih (st.updateRopePosition b) h.1 h.2

/-- `updateStats` preserves the statistics accounting identity. -/
lemma stats_identity_step (st : GameState) (p : Bool × Bool)
    (h : st.stats.totalQuestions =
      st.stats.correctAnswers + st.stats.wrongAnswers + st.stats.timeouts) :
    (st.updateStats p.1 p.2).stats.totalQuestions =
      (st.updateStats p.1 p.2).stats.correctAnswers +
        (st.updateStats p.1 p.2).stats.wrongAnswers +
        (st.updateStats p.1 p.2).stats.timeouts := by
  obtain ⟨b, t⟩ := p
  cases b <;> cases t <;> simp [GameState.updateStats] <;> omega

/-- The statistics accounting identity holds after any sequence of
`updateStats` calls from a state that satisfies it. -/
lemma stats_identity_foldl (calls : List (Bool × Bool)) (st : GameState)
    (h : st.stats.totalQuestions =
      st.stats.correctAnswers + st.stats.wrongAnswers + st.stats.timeouts) :
    (calls.foldl (fun s p => s.updateStats p.1 p.2) st).stats.totalQuestions =
      (calls.foldl (fun s p => s.updateStats p.1 p.2) st).stats.correctAnswers +
        (calls.foldl (fun s p => s.updateStats p.1 p.2) st).stats.wrongAnswers +
        (calls.foldl (fun s p => s.updateStats p.1 p.2) st).stats.timeouts := by
  induction calls generalizing st with
  | nil => exact h
  | cons p ps ih => exact ih (st.updateStats p.1 p.2) (stats_identity_step st p h)

/-- The resolution sequence changes the statistics exactly as its
initial `updateStats(isCorrect)` call does: none of the later steps
(score update, rope update, win check, limit check, player switch)
touches `stats`. -/
lemma processAnswer_stats (c : Controller) (isCorrect : Bool) :
    (c.processAnswer isCorrect).gameState.stats =
      (c.gameState.updateStats isCorrect false).stats := by
  simp only [Controller.processAnswer]
  split
  · rfl
  · split_ifs <;> first | rfl | (split <;> rfl)

/-- Bounds for `Math.floor(Math.random() * n)` with a random draw in
`[0, 1)`. -/
lemma rand_floor_bounds (r n : ℚ) (h0 : 0 ≤ r) (h1 : r < 1) (hn : 0 < n) :
    0 ≤ Int.floor (r * n) ∧ ((Int.floor (r * n) : ℚ)) < n := by
  refine ⟨Int.le_floor.mpr ?_, ?_⟩
  · push_cast
    exact mul_nonneg h0 hn.le
  · calc ((Int.floor (r * n) : ℚ)) ≤ r * n := Int.floor_le _
      _ < 1 * n := by nlinarith
      _ = n := one_mul n

/-! ## Claims -/

/-- C1: `updateRopePosition(isCorrect)` adds `direction * 2` to the rope
position when correct (`direction = -1` for player 1, `+1` otherwise)
and subtracts `direction * 1` when wrong, clamping the result to
`[-10, 10]`; consequently after any finite sequence of
`updateRopePosition` calls from the initial state the rope position is
in `[-10, 10]`. -/
theorem updateRopePosition_spec :
    (∀ (st : GameState) (isCorrect : Bool),
      (st.updateRopePosition isCorrect).ropePosition =
        max (-10) (min 10 (st.ropePosition +
          (if st.currentPlayer = 1 then (-1 : Int) else 1) *
            (if isCorrect then 2 else -1))))
    ∧ (∀ (st : GameState) (isCorrect : Bool),
      -10 ≤ (st.updateRopePosition isCorrect).ropePosition ∧
        (st.updateRopePosition isCorrect).ropePosition ≤ 10)
    ∧ (∀ bs : List Bool,
      -10 ≤ (bs.foldl GameState.updateRopePosition GameState.initial).ropePosition ∧
        (bs.foldl GameState.updateRopePosition GameState.initial).ropePosition ≤ 10) := by
  refine ⟨?_, ropePosition_bounds, ?_⟩
  · intro st b
    simp only [GameState.updateRopePosition, CORRECT_PULL_STRENGTH, WRONG_PULL_STRENGTH]
    cases b <;> by_cases h : st.currentPlayer = 1 <;> simp [h] <;> ring_nf
  · intro bs
    exact ropePosition_foldl_bounds bs GameState.initial (by norm_num [GameState.initial])
      (by norm_num [GameState.initial])

/-- C2: `checkWinCondition()` returns 'player1' iff the rope position is
at most -8, 'player2' iff it is at least 8, and `null` otherwise; in
particular rope position -8 yields 'player1' and -7 yields `null`. -/
theorem checkWinCondition_spec :
    (∀ st : GameState,
      (st.checkWinCondition = some Winner.player1 ↔ st.ropePosition ≤ -8)
      ∧ (st.checkWinCondition = some Winner.player2 ↔ st.ropePosition ≥ 8)
      ∧ (st.checkWinCondition = none ↔ -8 < st.ropePosition ∧ st.ropePosition < 8))
    ∧ ({ GameState.initial with ropePosition := -8 } : GameState).checkWinCondition
        = some Winner.player1
    ∧ ({ GameState.initial with ropePosition := -7 } : GameState).checkWinCondition
        = none := by
  refine ⟨?_, by decide, by decide⟩
  intro st
  simp only [GameState.checkWinCondition, WIN_THRESHOLD]
  split_ifs with h1 h2 <;>
    refine ⟨?_, ?_, ?_⟩ <;> simp_all <;> omega

/-- C3: each `updateStats(isCorrect, isTimeout)` call increments
`totalQuestions` by 1 and exactly one of `timeouts` (when `isTimeout`),
`correctAnswers` (when not `isTimeout` and `isCorrect`) or
`wrongAnswers` (otherwise); hence from the all-zero initial statistics,
after any sequence of `updateStats` calls,
`totalQuestions = correctAnswers + wrongAnswers + timeouts`. -/
theorem updateStats_spec :
    (∀ (st : GameState) (isCorrect isTimeout : Bool),
      (st.updateStats isCorrect isTimeout).stats =
        { totalQuestions := st.stats.totalQuestions + 1
          timeouts := st.stats.timeouts + (if isTimeout then 1 else 0)
          correctAnswers :=
            st.stats.correctAnswers + (if isTimeout = false ∧ isCorrect = true then 1 else 0)
          wrongAnswers :=
            st.stats.wrongAnswers + (if isTimeout = false ∧ isCorrect = false then 1 else 0) })
    ∧ (∀ calls : List (Bool × Bool),
      (calls.foldl (fun s p => s.updateStats p.1 p.2) GameState.initial).stats.totalQuestions =
        (calls.foldl (fun s p => s.updateStats p.1 p.2) GameState.initial).stats.correctAnswers +
          (calls.foldl (fun s p => s.updateStats p.1 p.2) GameState.initial).stats.wrongAnswers +
          (calls.foldl (fun s p => s.updateStats p.1 p.2) GameState.initial).stats.timeouts) := by
  constructor
  · intro st b t
    cases b <;> cases t <;> simp [GameState.updateStats]
  · intro calls
    exact stats_identity_foldl calls GameState.initial (by decide)

/-- C4: `handleTimeout` calls `updateStats(false, true)` and then
`processAnswer(false, '(timeout)')`, which calls `updateStats(false)`
again, so a single timed-out question increases `totalQuestions` by 2,
`timeouts` by 1 and `wrongAnswers` by 1 (and leaves `correctAnswers`
unchanged). -/
theorem handleTimeout_double_count (c : Controller) :
    (c.handleTimeout).gameState.stats =
      { totalQuestions := c.gameState.stats.totalQuestions + 2
        correctAnswers := c.gameState.stats.correctAnswers
        wrongAnswers := c.gameState.stats.wrongAnswers + 1
        timeouts := c.gameState.stats.timeouts + 1 } := by
  obtain ⟨⟨cp, rp, scs, stg, gst, cq, ⟨tq, ca, wa, tos⟩⟩, sc, tr, trem, sie, ie, nqs, wo⟩ := c
  simp only [Controller.handleTimeout]
  rw [processAnswer_stats]
  simp [Controller.stopTimer, GameState.updateStats, Stats.mk.injEq]
  omega

/-- C10: `GameState.reset()` (invoked by `resetGame()`) reinitialises
every field — scores, rope position, status, question, statistics — and
also the settings object to its built-in defaults (difficulty 'medium',
operation 'mixed', timer enabled with value 20, sound enabled, question
limit disabled with value 40), so settings chosen before the reset are
discarded. -/
theorem resetGame_restores_defaults :
    (∀ st : GameState, st.reset = GameState.initial)
    ∧ (∀ c : Controller,
        (c.resetGame).gameState = GameState.initial
        ∧ (c.resetGame).gameState.settings =
            { difficulty := Difficulty.medium
              operation := Operation.mixed
              timerEnabled := true
              timerValue := 20
              soundEnabled := true
              questionLimitEnabled := false
              questionLimit := 40 }
        ∧ (c.resetGame).scores = { player1 := 0, player2 := 0 }) :=
  ⟨fun _ => rfl, fun _ => ⟨rfl, rfl, rfl⟩⟩

/-- C9: the two drawn subtraction operands are swapped if needed so that
the larger is the minuend: the operand pair is `(max, min)` of the raw
draws, hence minuend ≥ subtrahend and the recorded answer is ≥ 0. -/
theorem generateSubtraction_nonneg :
    ∀ (d : Difficulty) (r₁ r₂ : ℚ),
      QuestionGenerator.subtractionDraws d r₁ r₂ =
        (max (QuestionGenerator.getRandomNumber d r₁) (QuestionGenerator.getRandomNumber d r₂),
         min (QuestionGenerator.getRandomNumber d r₁) (QuestionGenerator.getRandomNumber d r₂))
      ∧ (QuestionGenerator.subtractionDraws d r₁ r₂).2 ≤
          (QuestionGenerator.subtractionDraws d r₁ r₂).1
      ∧ ∃ a : ℚ,
          (QuestionGenerator.generateSubtraction d r₁ r₂).answer = some a
          ∧ a = ((QuestionGenerator.subtractionDraws d r₁ r₂).1 : ℚ) -
              ((QuestionGenerator.subtractionDraws d r₁ r₂).2 : ℚ)
          ∧ 0 ≤ a := by
  intro d r₁ r₂
  have hswap : QuestionGenerator.subtractionDraws d r₁ r₂ =
      (max (QuestionGenerator.getRandomNumber d r₁) (QuestionGenerator.getRandomNumber d r₂),
       min (QuestionGenerator.getRandomNumber d r₁) (QuestionGenerator.getRandomNumber d r₂)) := by
    simp only [QuestionGenerator.subtractionDraws]
    split_ifs with h
    · simp [Prod.ext_iff]
      omega
    · simp [Prod.ext_iff]
      omega
  have hle : (QuestionGenerator.subtractionDraws d r₁ r₂).2 ≤
      (QuestionGenerator.subtractionDraws d r₁ r₂).1 := by
    rw [hswap]
    exact min_le_max
  refine ⟨hswap, hle, _, rfl, rfl, ?_⟩
  rw [sub_nonneg]
  exact_mod_cast hle

/-- C8: every generated division question draws a divisor and a quotient
from difficulty-specific ranges (easy: divisor 2-10, quotient 1-10;
medium: divisor 2-10, quotient 1-20; hard: divisor 2-13, quotient 1-30)
and sets dividend = divisor * quotient, so the dividend is divisible by
the divisor and their integer quotient is the recorded answer. -/
theorem generateDivision_exact (d : Difficulty) (r₁ r₂ : ℚ)
    (h₁ : 0 ≤ r₁ ∧ r₁ < 1) (h₂ : 0 ≤ r₂ ∧ r₂ < 1) :
    2 ≤ (QuestionGenerator.divisionDraws d r₁ r₂).1
    ∧ 1 ≤ (QuestionGenerator.divisionDraws d r₁ r₂).2
    ∧ (d = Difficulty.easy → (QuestionGenerator.divisionDraws d r₁ r₂).1 ≤ 10
        ∧ (QuestionGenerator.divisionDraws d r₁ r₂).2 ≤ 10)
    ∧ (d = Difficulty.medium → (QuestionGenerator.divisionDraws d r₁ r₂).1 ≤ 10
        ∧ (QuestionGenerator.divisionDraws d r₁ r₂).2 ≤ 20)
    ∧ (d = Difficulty.hard → (QuestionGenerator.divisionDraws d r₁ r₂).1 ≤ 13
        ∧ (QuestionGenerator.divisionDraws d r₁ r₂).2 ≤ 30)
    ∧ (QuestionGenerator.generateDivision d r₁ r₂).answer =
        some (((QuestionGenerator.divisionDraws d r₁ r₂).2 : ℚ))
    ∧ ((QuestionGenerator.divisionDraws d r₁ r₂).1 * (QuestionGenerator.divisionDraws d r₁ r₂).2)
        % (QuestionGenerator.divisionDraws d r₁ r₂).1 = 0
    ∧ ((QuestionGenerator.divisionDraws d r₁ r₂).1 * (QuestionGenerator.divisionDraws d r₁ r₂).2)
        / (QuestionGenerator.divisionDraws d r₁ r₂).1 =
        (QuestionGenerator.divisionDraws d r₁ r₂).2 := by
  obtain ⟨h10, h11⟩ := h₁
  obtain ⟨h20, h21⟩ := h₂
  have b9 := rand_floor_bounds r₁ 9 h10 h11 (by norm_num)
  have b12 := rand_floor_bounds r₁ 12 h10 h11 (by norm_num)
  have b10 := rand_floor_bounds r₂ 10 h20 h21 (by norm_num)
  have b20 := rand_floor_bounds r₂ 20 h20 h21 (by norm_num)
  have b30 := rand_floor_bounds r₂ 30 h20 h21 (by norm_num)
  have c9 : Int.floor (r₁ * 9) < 9 := by exact_mod_cast b9.2
  have c12 : Int.floor (r₁ * 12) < 12 := by exact_mod_cast b12.2
  have c10 : Int.floor (r₂ * 10) < 10 := by exact_mod_cast b10.2
  have c20 : Int.floor (r₂ * 20) < 20 := by exact_mod_cast b20.2
  have c30 : Int.floor (r₂ * 30) < 30 := by exact_mod_cast b30.2
  have hdvd : ∀ a b : Int, 2 ≤ a → (a * b) % a = 0 ∧ (a * b) / a = b := by
    intro a b ha
    exact ⟨Int.mul_emod_right a b, Int.mul_ediv_cancel_left b (by omega)⟩
  cases d
  case easy =>
    have e : QuestionGenerator.divisionDraws Difficulty.easy r₁ r₂ =
        (Int.floor (r₁ * 9) + 2, Int.floor (r₂ * 10) + 1) := by
      simp [QuestionGenerator.divisionDraws]
    rw [e]
    refine ⟨by omega, by omega, fun _ => ⟨by omega, by omega⟩,
      fun h => absurd h (by decide), fun h => absurd h (by decide),
      by simp [QuestionGenerator.generateDivision, e],
      (hdvd _ _ (by omega)).1, (hdvd _ _ (by omega)).2⟩
  case medium =>
    have e : QuestionGenerator.divisionDraws Difficulty.medium r₁ r₂ =
        (Int.floor (r₁ * 9) + 2, Int.floor (r₂ * 20) + 1) := by
      simp [QuestionGenerator.divisionDraws]
    rw [e]
    refine ⟨by omega, by omega, fun h => absurd h (by decide),
      fun _ => ⟨by omega, by omega⟩, fun h => absurd h (by decide),
      by simp [QuestionGenerator.generateDivision, e],
      (hdvd _ _ (by omega)).1, (hdvd _ _ (by omega)).2⟩
  case hard =>
    have e : QuestionGenerator.divisionDraws Difficulty.hard r₁ r₂ =
        (Int.floor (r₁ * 12) + 2, Int.floor (r₂ * 30) + 1) := by
      simp [QuestionGenerator.divisionDraws]
    rw [e]
    refine ⟨by omega, by omega, fun h => absurd h (by decide),
      fun h => absurd h (by decide), fun _ => ⟨by omega, by omega⟩,
      by simp [QuestionGenerator.generateDivision, e],
      (hdvd _ _ (by omega)).1, (hdvd _ _ (by omega)).2⟩

/-- Witness for C8: the hypotheses hold at `difficulty = easy` with both
random draws equal to 0, and the theorem applies there. -/
theorem generateDivision_exact_witness :
    ((0:ℚ) ≤ 0 ∧ (0:ℚ) < 1)
    ∧ 2 ≤ (QuestionGenerator.divisionDraws Difficulty.easy 0 0).1
    ∧ (QuestionGenerator.generateDivision Difficulty.easy 0 0).answer =
        some (((QuestionGenerator.divisionDraws Difficulty.easy 0 0).2 : ℚ)) :=
  ⟨⟨le_refl 0, by norm_num⟩,
   (generateDivision_exact Difficulty.easy 0 0 ⟨le_refl 0, by norm_num⟩
      ⟨le_refl 0, by norm_num⟩).1,
   (generateDivision_exact Difficulty.easy 0 0 ⟨le_refl 0, by norm_num⟩
      ⟨le_refl 0, by norm_num⟩).2.2.2.2.2.1⟩

/-- C6: in the resolution sequence, when the question limit is enabled
and reached (and no rope-threshold winner exists), the round ends with
the higher-scoring player as winner when the scores are unequal, and
stays playing (scheduling the next question) when they are equal. -/
theorem processAnswer_questionLimit (c : Controller) (isCorrect : Bool)
    (hplay : c.gameState.gameStatus = GameStatus.playing)
    (hwin : ((c.gameState.updateStats isCorrect false).updateRopePosition
        isCorrect).checkWinCondition = none)
    (hen : c.gameState.settings.questionLimitEnabled = true)
    (hlim : c.gameState.settings.questionLimit ≤ c.gameState.stats.totalQuestions + 1) :
    let sc1 := if isCorrect then ScoreManager.updateScore c.scores c.gameState.currentPlayer 1
      else c.scores
    (sc1.player1 ≠ sc1.player2 →
      (c.processAnswer isCorrect).gameState.gameStatus = GameStatus.ended
      ∧ (c.processAnswer isCorrect).winOverlay =
          some (if sc1.player2 < sc1.player1 then Winner.player1 else Winner.player2))
    ∧ (sc1.player1 = sc1.player2 →
      (c.processAnswer isCorrect).gameState.gameStatus = GameStatus.playing
      ∧ (c.processAnswer isCorrect).nextQuestionScheduled = true) := by
  intro sc1
  have hs : ((c.gameState.updateStats isCorrect false).updateRopePosition
      isCorrect).settings = c.gameState.settings := by
    cases isCorrect <;> rfl
  have ht : ((c.gameState.updateStats isCorrect false).updateRopePosition
      isCorrect).stats.totalQuestions = c.gameState.stats.totalQuestions + 1 := by
    cases isCorrect <;> rfl
  have hcp : (c.gameState.updateStats isCorrect false).currentPlayer
      = c.gameState.currentPlayer := by
    cases isCorrect <;> rfl
  simp only [Controller.processAnswer, hwin, hcp, hs, ht, hen]
  simp only [if_true]
  rw [if_pos (show c.gameState.stats.totalQuestions + 1 ≥ c.gameState.settings.questionLimit
    from hlim)]
  constructor
  · intro hne
    have hdw : ScoreManager.determineWinner sc1 =
        some (if sc1.player2 < sc1.player1 then Winner.player1 else Winner.player2) := by
      simp only [ScoreManager.determineWinner]
      rcases lt_trichotomy sc1.player1 sc1.player2 with h | h | h
      · rw [if_neg (by omega), if_pos (by omega), if_neg (by omega)]
      · exact absurd h hne
      · rw [if_pos (by omega), if_pos (by omega)]
    rw [hdw]
    exact ⟨rfl, rfl⟩
  · intro heq
    have hdw : ScoreManager.determineWinner sc1 = none := by
      simp only [ScoreManager.determineWinner]
      rw [if_neg (by omega), if_neg (by omega)]
    rw [hdw]
    refine ⟨?_, rfl⟩
    cases isCorrect <;> simpa [GameState.switchPlayer, GameState.updateRopePosition,
      GameState.updateStats] using hplay

/-- A mid-round state: playing, question limit 5 enabled, 4 questions
already resolved, player 1 leading 3-1, rope at centre. -/
def limitReachedState : Controller where
  gameState :=
    { GameState.initial with
      gameStatus := GameStatus.playing
      settings := { defaultSettings with questionLimitEnabled := true, questionLimit := 5 }
      stats := { totalQuestions := 4, correctAnswers := 2, wrongAnswers := 2, timeouts := 0 } }
  scores := { player1 := 3, player2 := 1 }
  timerRunning := false
  timeRemaining := 0
  settingsInputsEnabled := false
  inputEnabled := true
  nextQuestionScheduled := false
  winOverlay := none

/-- Witness for C6: at `limitReachedState` the hypotheses hold and a
wrong answer to the fifth question ends the round with player 1 (who
leads 3-1) as winner. -/
theorem processAnswer_questionLimit_witness :
    limitReachedState.gameState.gameStatus = GameStatus.playing
    ∧ ((limitReachedState.gameState.updateStats false false).updateRopePosition
        false).checkWinCondition = none
    ∧ limitReachedState.gameState.settings.questionLimit ≤
        limitReachedState.gameState.stats.totalQuestions + 1
    ∧ (limitReachedState.processAnswer false).gameState.gameStatus = GameStatus.ended
    ∧ (limitReachedState.processAnswer false).winOverlay = some Winner.player1 := by
  have h := processAnswer_questionLimit limitReachedState false rfl (by decide) rfl (by decide)
  have h2 := h.1 (by decide)
  refine ⟨rfl, by decide, by decide, h2.1, ?_⟩
  rw [h2.2]
  decide

/-- C7 (failing input): after `startGame()` the game status is
'playing' and yet a `questionLimitInput` change event with value 10 is
honored — `_setSettingsEnabled(false)` does not include
`questionLimitInput` (nor `questionLimitToggle`) in its element list, so
those settings remain editable during play.  By contrast a
`difficultySelect` change is correctly suppressed: the element is
disabled. -/
theorem questionLimit_update_honored_while_playing :
    (Controller.initial.startGame 0 0 0).gameState.gameStatus = GameStatus.playing
    ∧ (Controller.initial.startGame 0 0 0).gameState.settings.questionLimit = 40
    ∧ ((Controller.initial.startGame 0 0 0).onQuestionLimitChange 10).gameState.gameStatus
        = GameStatus.playing
    ∧ ((Controller.initial.startGame 0 0 0).onQuestionLimitChange
        10).gameState.settings.questionLimit = 10
    ∧ ((Controller.initial.startGame 0 0 0).onDifficultyChange
        Difficulty.easy).gameState.settings.difficulty = Difficulty.medium :=
  ⟨rfl, rfl, rfl, rfl, rfl⟩

/-- C5: `validateAnswer` returns false when the input is empty, absent,
or not parseable as a number, and otherwise returns true iff the parsed
value is within 0.01 of the expected answer; in particular it rejects
`''`, `null` and `'abc'`, accepts `'5'` and `'5.001'` against expected
5, and rejects `'5.02'` against expected 5. -/
theorem validateAnswer_spec :
    (∀ (v : JSValue) (e : ℚ),
      validateAnswer v e = true ↔
        (v ≠ JSValue.str "" ∧ v ≠ JSValue.null ∧ v ≠ JSValue.undefined ∧
          ∃ q : ℚ, jsNumber v = some q ∧ |q - e| < 1 / 100))
    ∧ validateAnswer (JSValue.str "") 5 = false
    ∧ validateAnswer JSValue.null 5 = false
    ∧ validateAnswer (JSValue.str "abc") 5 = false
    ∧ validateAnswer (JSValue.str "5") 5 = true
    ∧ validateAnswer (JSValue.str "5.001") 5 = true
    ∧ validateAnswer (JSValue.str "5.02") 5 = false := by
  have hgen : ∀ (v : JSValue) (e : ℚ),
      validateAnswer v e = true ↔
        (v ≠ JSValue.str "" ∧ v ≠ JSValue.null ∧ v ≠ JSValue.undefined ∧
          ∃ q : ℚ, jsNumber v = some q ∧ |q - e| < 1 / 100) := by
    intro v e
    simp only [validateAnswer]
    split_ifs with h
    · constructor
      · intro hf
        cases hf
      · rintro ⟨h1, h2, h3, -⟩
        rcases h with h | h | h
        · exact absurd h h1
        · exact absurd h h2
        · exact absurd h h3
    · push_neg at h
      obtain ⟨h1, h2, h3⟩ := h
      cases hj : jsNumber v with
      | none => simp [hj, h1, h2, h3]
      | some q => simp [hj, h1, h2, h3]
  have hv5 : jsNumber (JSValue.str "5") = some 5 := by decide
  have hv5001 : jsNumber (JSValue.str "5.001") =
      some ((((5:ℕ)):ℚ) + (((1:ℕ)):ℚ) / (10:ℚ) ^ (3:ℕ)) := rfl
  have hv502 : jsNumber (JSValue.str "5.02") =
      some ((((5:ℕ)):ℚ) + (((2:ℕ)):ℚ) / (10:ℚ) ^ (2:ℕ)) := rfl
  refine ⟨hgen, rfl, rfl, rfl, ?_, ?_, ?_⟩
  · exact (hgen _ _).mpr ⟨by decide, by decide, by decide, 5, hv5, by norm_num⟩
  · refine (hgen _ _).mpr ⟨by decide, by decide, by decide, _, hv5001, ?_⟩
    rw [abs_sub_lt_iff]
    constructor <;> push_cast <;> norm_num
  · cases hb : validateAnswer (JSValue.str "5.02") 5 with
    | false => rfl
    | true =>
        exfalso
        obtain ⟨-, -, -, q, hq, hlt⟩ := (hgen _ _).mp hb
        rw [hv502] at hq
        have hq' := Option.some.inj hq
        rw [← hq', abs_sub_lt_iff] at hlt
        have hcontra := hlt.1
        push_cast at hcontra
        norm_num at hcontra

end TugOfWar
